import Mathlib

/-!
The vgmanager daemonset of the LVM operator.

A shallow embedding of `controllers/vgmanager_daemonset.go`: the four host
volumes and their mounts, `getRunningPodImage` and `newVGManagerDaemonset`,
followed by the properties of the image resolution and of the daemonset that
is built.

Go values are embedded as follows.  A struct is a Lean structure whose fields
default to the Go zero value, so a composite literal that omits a field reads
the same in both languages and `T{}` is `({} : T)`.  A pointer field is an
`Option`.  A `(value, error)` result is a structure with an `err : Option
GoError` field, `none` being the nil error.  The calls a function makes on its
surroundings (`r.Get`, `r.Log.Info`, `r.Log.Error`) are recorded, in order, in
the `events` field of its result.
-/

namespace VGManager

/-! ## Errors and formatting -/

/-- The Go errors this file builds or receives: `errorString` is what
`errors.New` and a `fmt.Errorf` without a `%w` verb return, `wrapError` is what
a `fmt.Errorf` with one `%w` verb returns. -/
inductive GoError where
  | errorString (s : String)
  | wrapError (msg : String) (err : GoError)
  deriving DecidableEq, Repr

/-- The method `Error()` of an error. -/
def GoError.Error : GoError → String
  | .errorString s => s
  | .wrapError msg _ => msg

/-- The method `Unwrap()` as seen by `errors.Unwrap`: an `errorString` has
none. -/
def GoError.Unwrap : GoError → Option GoError
  | .errorString _ => none
  | .wrapError _ err => some err

/-- The formatting loop of `fmt.Sprintf` for the verb `%s` with string
operands, which is all this file uses.  The flag tells that the previous
character was a `%`.  A `%s` without an operand left prints `%!s(MISSING)`;
any other character after a `%` is kept as it stands. -/
def sprintfGo : Bool → List Char → List String → List Char
  | false, [], _ => []
  | true, [], _ => ['%']
  | false, c :: cs, args =>
      if c = '%' then sprintfGo true cs args else c :: sprintfGo false cs args
  | true, c :: cs, args =>
      if c = 's' then
        match args with
        | [] => "%!s(MISSING)".data ++ sprintfGo false cs []
        | a :: rest => a.data ++ sprintfGo false cs rest
      else '%' :: c :: sprintfGo false cs args

/-- The function `fmt.Sprintf` on a format whose verbs are `%s` and on string
operands. -/
def Sprintf (format : String) (args : List String) : String :=
  ⟨sprintfGo false format.data args⟩

/-- The function `fmt.Errorf` on a format without `%w`: the formatted text as
an `errorString`. -/
def Errorf (format : String) (args : List String) : GoError :=
  .errorString (Sprintf format args)

/-! ## The Kubernetes objects the file builds and reads -/

/-- The type `corev1.MountPropagationMode`, a string type. -/
abbrev MountPropagationMode := String

/-- The constant `corev1.MountPropagationHostToContainer`. -/
def MountPropagationHostToContainer : MountPropagationMode := "HostToContainer"

/-- The type `corev1.HostPathType`, a string type. -/
abbrev HostPathType := String

/-- The constant `corev1.HostPathDirectory`. -/
def HostPathDirectory : HostPathType := "Directory"

/-- The constant `corev1.HostPathDirectoryOrCreate`. -/
def corev1HostPathDirectoryOrCreate : HostPathType := "DirectoryOrCreate"

/-- The struct `corev1.HostPathVolumeSource`; its field `Type` is written
`Type_`. -/
structure HostPathVolumeSource where
  Path : String := ""
  Type_ : Option HostPathType := none
  deriving DecidableEq, Repr

/-- The struct `corev1.VolumeSource`, of which only the host path is used. -/
structure VolumeSource where
  HostPath : Option HostPathVolumeSource := none
  deriving DecidableEq, Repr

/-- The struct `corev1.Volume`; the embedded `VolumeSource` is a field. -/
structure Volume where
  Name : String := ""
  VolumeSource : VolumeSource := {}
  deriving DecidableEq, Repr

/-- The struct `corev1.VolumeMount`. -/
structure VolumeMount where
  Name : String := ""
  MountPath : String := ""
  MountPropagation : Option MountPropagationMode := none
  deriving DecidableEq, Repr

/-- The struct `corev1.ObjectFieldSelector`. -/
structure ObjectFieldSelector where
  APIVersion : String := ""
  FieldPath : String := ""
  deriving DecidableEq, Repr

/-- The struct `corev1.EnvVarSource`, of which only the field reference is
used. -/
structure EnvVarSource where
  FieldRef : Option ObjectFieldSelector := none
  deriving DecidableEq, Repr

/-- The struct `corev1.EnvVar`. -/
structure EnvVar where
  Name : String := ""
  Value : String := ""
  ValueFrom : Option EnvVarSource := none
  deriving DecidableEq, Repr

/-- The struct `corev1.SecurityContext`; `RunAsUser` is an `*int64`. -/
structure SecurityContext where
  Privileged : Option Bool := none
  RunAsUser : Option Int := none
  deriving DecidableEq, Repr

/-- The struct `corev1.Container`. -/
structure Container where
  Name : String := ""
  Image : String := ""
  Command : List String := []
  Args : List String := []
  Env : List EnvVar := []
  VolumeMounts : List VolumeMount := []
  SecurityContext : Option SecurityContext := none
  deriving DecidableEq, Repr

/-- The struct `corev1.Toleration`. -/
structure Toleration where
  Key : String := ""
  Operator : String := ""
  Value : String := ""
  Effect : String := ""
  TolerationSeconds : Option Int := none
  deriving DecidableEq, Repr

/-- The struct `corev1.NodeSelectorRequirement`. -/
structure NodeSelectorRequirement where
  Key : String := ""
  Operator : String := ""
  Values : List String := []
  deriving DecidableEq, Repr

/-- The struct `corev1.NodeSelectorTerm`. -/
structure NodeSelectorTerm where
  MatchExpressions : List NodeSelectorRequirement := []
  MatchFields : List NodeSelectorRequirement := []
  deriving DecidableEq, Repr

/-- The struct `corev1.NodeSelector`. -/
structure NodeSelector where
  NodeSelectorTerms : List NodeSelectorTerm := []
  deriving DecidableEq, Repr

/-- The struct `corev1.NodeAffinity`, of which only the required terms are
used. -/
structure NodeAffinity where
  RequiredDuringSchedulingIgnoredDuringExecution : Option NodeSelector := none
  deriving DecidableEq, Repr

/-- The struct `corev1.Affinity`, of which only the node affinity is used. -/
structure Affinity where
  NodeAffinity : Option NodeAffinity := none
  deriving DecidableEq, Repr

/-- A Go `map[string]string`: the pairs of a map literal in the order they
are written.  What a map holds is read with `GoMap.get`; two maps are the same
map when they hold the same value under every key. -/
abbrev GoMap := List (String × String)

/-- The lookup `v, ok := m[k]`; the last pair written for a key wins. -/
def GoMap.get (m : GoMap) (k : String) : Option String :=
  (m.reverse.find? (fun p => p.1 = k)).map (fun p => p.2)

/-- The struct `corev1.PodSpec`. -/
structure PodSpec where
  Volumes : List Volume := []
  Containers : List Container := []
  HostPID : Bool := false
  Tolerations : List Toleration := []
  ServiceAccountName : String := ""
  Affinity : Option Affinity := none
  deriving DecidableEq, Repr

/-- The struct `metav1.ObjectMeta`. -/
structure ObjectMeta where
  Name : String := ""
  Namespace : String := ""
  Labels : GoMap := []
  deriving DecidableEq, Repr

/-- The struct `corev1.Pod`. -/
structure Pod where
  ObjectMeta : ObjectMeta := {}
  Spec : PodSpec := {}
  deriving DecidableEq, Repr

/-- The struct `corev1.PodTemplateSpec`. -/
structure PodTemplateSpec where
  ObjectMeta : ObjectMeta := {}
  Spec : PodSpec := {}
  deriving DecidableEq, Repr

/-- The struct `metav1.LabelSelector`. -/
structure LabelSelector where
  MatchLabels : GoMap := []
  deriving DecidableEq, Repr

/-- The struct `appsv1.DaemonSetSpec`. -/
structure DaemonSetSpec where
  Selector : Option LabelSelector := none
  Template : PodTemplateSpec := {}
  deriving DecidableEq, Repr

/-- The struct `appsv1.DaemonSet`. -/
structure DaemonSet where
  ObjectMeta : ObjectMeta := {}
  Spec : DaemonSetSpec := {}
  deriving DecidableEq, Repr

/-- The struct `types.NamespacedName`. -/
structure NamespacedName where
  Name : String := ""
  Namespace : String := ""
  deriving DecidableEq, Repr

/-- The struct `lvmv1alpha1.DeviceClass`, with the fields this controller
reads. -/
structure DeviceClass where
  Name : String := ""
  NodeSelector : Option NodeSelector := none
  Tolerations : List Toleration := []
  deriving DecidableEq, Repr

/-- The struct `lvmv1alpha1.LVMClusterSpec`. -/
structure LVMClusterSpec where
  DeviceClasses : List DeviceClass := []
  deriving DecidableEq, Repr

/-- The struct `lvmv1alpha1.LVMCluster`; `Name` is the name in its object
metadata. -/
structure LVMCluster where
  Name : String := ""
  Spec : LVMClusterSpec := {}
  deriving DecidableEq, Repr

/-! ## The surroundings of the two functions -/

/-- A `context.Context`; it is only handed on to `r.Get`. -/
structure Context where
  id : Nat := 0
  deriving DecidableEq, Repr

/-- The process environment: the value of each variable that is set. -/
abbrev Environ := String → Option String

/-- The function `os.Getenv`: the value of the variable, empty when the
variable is not set. -/
def Getenv (env : Environ) (key : String) : String :=
  (env key).getD ""

/-- The receiver `*LVMClusterReconciler`: its namespace and the `Get` of its
client, which answers with the pod or with an error. -/
structure LVMClusterReconciler where
  Namespace : String
  Get : Context → NamespacedName → Except GoError Pod

/-- The package-level names the file uses and other files of the package
declare. -/
structure Package where
  VGManagerUnit : String
  VGManagerServiceAccount : String
  LVMOperatorContainerName : String
  extractNodeSelectorAndTolerations : LVMCluster → Option NodeSelector × List Toleration

/-- A call made on the surroundings: a `r.Get` with its key, a `r.Log.Error`
with its error and message, a `r.Log.Info` with its message and key-value
pairs. -/
inductive Event where
  | get (key : NamespacedName)
  | logError (err : GoError) (msg : String)
  | logInfo (msg : String) (keysAndValues : List String)
  deriving DecidableEq, Repr

/-- The result `(string, error)` of `getRunningPodImage` with the calls it
made. -/
structure ImageResult where
  image : String
  err : Option GoError
  events : List Event
  deriving DecidableEq, Repr

/-- The result `(appsv1.DaemonSet, error)` of `newVGManagerDaemonset` with the
calls it made. -/
structure DaemonSetResult where
  ds : DaemonSet
  err : Option GoError
  events : List Event
  deriving DecidableEq, Repr

/-! ## The package-level variables of the file -/

def hostContainerPropagation : MountPropagationMode := MountPropagationHostToContainer
def directoryHostPath : HostPathType := HostPathDirectory
def HostPathDirectoryOrCreate : HostPathType := corev1HostPathDirectoryOrCreate

def LVMdVolName : String := "lvmd-conf"
def UdevVolName : String := "run-udev"
def DevDirVolName : String := "device-dir"
def SysVolName : String := "sys"

def LVMdDir : String := "/etc/topolvm"
def devDirPath : String := "/dev"
def udevPath : String := "/run/udev"
def sysPath : String := "/sys"

/-- The volume of the directory on the host that stores the lvmd.conf file. -/
def LVMDConfVol : Volume :=
  { Name := LVMdVolName,
    VolumeSource := { HostPath := some { Path := LVMdDir, Type_ := some HostPathDirectoryOrCreate } } }

/-- The mount of `LVMDConfVol`. -/
def LVMDConfVolMount : VolumeMount :=
  { Name := LVMdVolName, MountPath := LVMdDir, MountPropagation := some hostContainerPropagation }

/-- The volume of the "/dev" bind mount used to list block devices. -/
def DevHostDirVol : Volume :=
  { Name := DevDirVolName,
    VolumeSource := { HostPath := some { Path := devDirPath, Type_ := some directoryHostPath } } }

/-- The mount of `DevHostDirVol`. -/
def DevHostDirVolMount : VolumeMount :=
  { Name := DevDirVolName, MountPath := devDirPath, MountPropagation := some hostContainerPropagation }

/-- The volume of the "/run/udev" host bind mount. -/
def UDevHostDirVol : Volume :=
  { Name := UdevVolName, VolumeSource := { HostPath := some { Path := udevPath } } }

/-- The mount of `UDevHostDirVol`. -/
def UDevHostDirVolMount : VolumeMount :=
  { Name := UdevVolName, MountPath := udevPath, MountPropagation := some hostContainerPropagation }

/-- The volume of the "/sys" host bind mount. -/
def SysHostDirVol : Volume :=
  { Name := SysVolName, VolumeSource := { HostPath := some { Path := sysPath } } }

/-- The mount of `SysHostDirVol`. -/
def SysHostDirVolMount : VolumeMount :=
  { Name := SysVolName, MountPath := sysPath, MountPropagation := some hostContainerPropagation }

/-! ## The functions -/

/-- Modelled from the spec: `setDaemonsetNodeSelector`, which another file of
the package declares.  It applies the aggregated node-selection predicate, if
there is one, to the pod template, as the required node affinity; without a
predicate the template carries no affinity.  Nothing else of the daemonset is
touched. -/
def setDaemonsetNodeSelector (nodeSelector : Option NodeSelector) (ds : DaemonSet) : DaemonSet :=
  match nodeSelector with
  | some sel =>
      let affinity : Affinity :=
        { NodeAffinity := some { RequiredDuringSchedulingIgnoredDuringExecution := some sel } }
      { ds with Spec.Template.Spec.Affinity := some affinity }
  | none => { ds with Spec.Template.Spec.Affinity := none }

/-- The loop `for _, c := range pod.Spec.Containers` of `getRunningPodImage`:
the image of the first container with the given name. -/
def findContainerImage (name : String) : List Container → Option String
  | [] => none
  | c :: rest => if c.Name = name then some c.Image else findContainerImage name rest

/-- The function `getRunningPodImage`. -/
def getRunningPodImage (P : Package) (env : Environ) (r : LVMClusterReconciler) (ctx : Context) :
    ImageResult :=
  let podName := Getenv env "POD_NAME"
  if podName = "" then
    { image := "", err := some (Errorf "failed to get pod name env variable" []), events := [] }
  else
    let key : NamespacedName := { Name := podName, Namespace := r.Namespace }
    match r.Get ctx key with
    | .error _ =>
        { image := "",
          err := some (Errorf "failed to get pod %s in namespace %s" [podName, r.Namespace]),
          events := [.get key] }
    | .ok pod =>
        match findContainerImage P.LVMOperatorContainerName pod.Spec.Containers with
        | some image => { image := image, err := none, events := [.get key] }
        | none =>
            { image := "",
              err := some (Errorf "failed to get container image for %s in pod %s"
                [P.LVMOperatorContainerName, podName]),
              events := [.get key] }

/-- The function `newVGManagerDaemonset`. -/
def newVGManagerDaemonset (P : Package) (env : Environ) (r : LVMClusterReconciler) (ctx : Context)
    (lvmCluster : LVMCluster) : DaemonSetResult :=
  let (nodeSelector, tolerations) := P.extractNodeSelectorAndTolerations lvmCluster
  let volumes := [LVMDConfVol, DevHostDirVol, UDevHostDirVol, SysHostDirVol]
  let volumeMounts := [LVMDConfVolMount, DevHostDirVolMount, UDevHostDirVolMount, SysHostDirVolMount]
  let privileged := true
  let zero : Int := 0
  let fromEnv := Getenv env "VGMANAGER_IMAGE"
  let lookup : ImageResult :=
    if fromEnv = "" then getRunningPodImage P env r ctx
    else { image := fromEnv, err := none, events := [] }
  match lookup.err with
  | some err =>
      { ds := {}, err := some err,
        events := lookup.events ++ [.logError err "failed to get image from running operator"] }
  | none =>
      let image := lookup.image
      let command := ["/vgmanager"]
      let containers : List Container :=
        [{ Name := P.VGManagerUnit,
           Image := image,
           Command := command,
           SecurityContext := some { Privileged := some privileged, RunAsUser := some zero },
           VolumeMounts := volumeMounts,
           Env :=
             [{ Name := "NODE_NAME", ValueFrom := some { FieldRef := some { FieldPath := "spec.nodeName" } } },
              { Name := "POD_NAMESPACE",
                ValueFrom := some { FieldRef := some { FieldPath := "metadata.namespace" } } },
              { Name := "POD_NAME", ValueFrom := some { FieldRef := some { FieldPath := "metadata.name" } } }] }]
      let labels : GoMap := [("app", P.VGManagerUnit), ("topolvm.io/lvmcluster", lvmCluster.Name)]
      let ds : DaemonSet :=
        { ObjectMeta := { Name := P.VGManagerUnit, Namespace := r.Namespace, Labels := labels },
          Spec :=
            { Selector := some { MatchLabels := labels },
              Template :=
                { ObjectMeta := { Labels := labels },
                  Spec :=
                    { Volumes := volumes,
                      Containers := containers,
                      HostPID := true,
                      Tolerations := tolerations,
                      ServiceAccountName := P.VGManagerServiceAccount } } } }
      { ds := setDaemonsetNodeSelector nodeSelector ds, err := none,
        events := lookup.events ++ [.logInfo "creating VG manager deployment" ["image", image]] }

/-! ## Vocabulary of the properties -/

/-- The text `sub` occurs in the text `s`. -/
def Contains (s sub : String) : Prop :=
  ∃ pre post : String, s = pre ++ sub ++ post

/-- The error and everything reached from it by unwrapping, outermost
first. -/
def GoError.chain : GoError → List GoError
  | .errorString s => [.errorString s]
  | .wrapError msg err => .wrapError msg err :: err.chain

/-- The error `outer` wraps `inner`: unwrapping `outer` at least once reaches
`inner`. -/
def GoError.Wraps (outer inner : GoError) : Prop :=
  match outer.Unwrap with
  | none => False
  | some err => inner ∈ err.chain

/-- The names of the volumes a container mounts. -/
def mountNames (c : Container) : List String :=
  c.VolumeMounts.map (fun m => m.Name)

/-- The names of the volumes of a pod. -/
def volumeNames (spec : PodSpec) : List String :=
  spec.Volumes.map (fun v => v.Name)

/-- The key under which `getRunningPodImage` asks for the operator's pod. -/
def selfKey (env : Environ) (r : LVMClusterReconciler) : NamespacedName :=
  { Name := Getenv env "POD_NAME", Namespace := r.Namespace }

/-! ## Inputs for the worked examples -/

/-- The names as the operator declares them. -/
def operatorPackage : Package :=
  { VGManagerUnit := "vg-manager",
    VGManagerServiceAccount := "vg-manager",
    LVMOperatorContainerName := "manager",
    extractNodeSelectorAndTolerations := fun _ => (none, []) }

/-- An environment given by the list of its variables. -/
def envOf (vars : List (String × String)) : Environ :=
  fun k => vars.lookup k

/-- A reconciler in namespace "lvm-ns" whose client answers every `Get` with
the given pod. -/
def reconcilerWith (pod : Pod) : LVMClusterReconciler :=
  { Namespace := "lvm-ns", Get := fun _ _ => .ok pod }

/-- A reconciler in namespace "lvm-ns" whose client fails every `Get` with the
given error. -/
def reconcilerFailing (e : GoError) : LVMClusterReconciler :=
  { Namespace := "lvm-ns", Get := fun _ _ => .error e }

/-- A pod with the given containers. -/
def podOf (cs : List Container) : Pod :=
  { Spec := { Containers := cs } }

/-! ## Auxiliary facts -/

theorem contains_mid (pre sub post : String) : Contains (pre ++ sub ++ post) sub :=
  ⟨pre, post, rfl⟩

theorem contains_end (pre sub : String) : Contains (pre ++ sub) sub :=
  ⟨pre, "", by simp⟩

theorem contains_mid_end (pre sub mid last : String) :
    Contains (pre ++ sub ++ mid ++ last) sub :=
  ⟨pre, mid ++ last, by simp [String.append_assoc]⟩

theorem sprintf_pod_name :
    Sprintf "failed to get pod name env variable" [] = "failed to get pod name env variable" := by
  apply String.ext
  simp [Sprintf, sprintfGo]

theorem sprintf_get_pod (podName ns : String) :
    Sprintf "failed to get pod %s in namespace %s" [podName, ns]
      = "failed to get pod " ++ podName ++ " in namespace " ++ ns := by
  apply String.ext
  simp [Sprintf, sprintfGo]

theorem sprintf_container_image (name podName : String) :
    Sprintf "failed to get container image for %s in pod %s" [name, podName]
      = "failed to get container image for " ++ name ++ " in pod " ++ podName := by
  apply String.ext
  simp [Sprintf, sprintfGo]

theorem findContainerImage_first (name : String) (pre post : List Container) (c : Container)
    (hpre : ∀ d ∈ pre, d.Name ≠ name) (hc : c.Name = name) :
    findContainerImage name (pre ++ c :: post) = some c.Image := by
  induction pre with
  | nil => simp [findContainerImage, hc]
  | cons d ds ih =>
      have hd : d.Name ≠ name := hpre d (by simp)
      have hds : ∀ x ∈ ds, x.Name ≠ name := fun x hx => hpre x (by simp [hx])
      simp [findContainerImage, hd, ih hds]

theorem findContainerImage_none (name : String) (cs : List Container)
    (hno : ∀ d ∈ cs, d.Name ≠ name) : findContainerImage name cs = none := by
  induction cs with
  | nil => rfl
  | cons d ds ih =>
      have hd : d.Name ≠ name := hno d (by simp)
      have hds : ∀ x ∈ ds, x.Name ≠ name := fun x hx => hno x (by simp [hx])
      simp [findContainerImage, hd, ih hds]

theorem findContainerImage_some (name : String) (cs : List Container) (image : String)
    (h : findContainerImage name cs = some image) :
    ∃ c ∈ cs, c.Name = name ∧ c.Image = image := by
  induction cs with
  | nil => simp [findContainerImage] at h
  | cons d ds ih =>
      by_cases hd : d.Name = name
      · simp [findContainerImage, hd] at h
        exact ⟨d, by simp, hd, h⟩
      · simp [findContainerImage, hd] at h
        obtain ⟨c, hc, hn, hi⟩ := ih h
        exact ⟨c, by simp [hc], hn, hi⟩

theorem getRunningPodImage_missing_name_eq (P : Package) (env : Environ)
    (r : LVMClusterReconciler) (ctx : Context) (hname : Getenv env "POD_NAME" = "") :
    getRunningPodImage P env r ctx
      = { image := "", err := some (.errorString "failed to get pod name env variable"),
          events := [] } := by
  simp only [getRunningPodImage, hname, if_true, Errorf, sprintf_pod_name]

/-- The three outcomes of `getRunningPodImage` with a pod name: the fetch
failed, no container has the operator's name, or the image was found. -/
theorem getRunningPodImage_eq (P : Package) (env : Environ) (r : LVMClusterReconciler)
    (ctx : Context) (hname : Getenv env "POD_NAME" ≠ "") :
    getRunningPodImage P env r ctx =
      match r.Get ctx (selfKey env r) with
      | .error _ =>
          { image := "",
            err := some (.errorString ("failed to get pod " ++ Getenv env "POD_NAME"
              ++ " in namespace " ++ r.Namespace)),
            events := [.get (selfKey env r)] }
      | .ok pod =>
          match findContainerImage P.LVMOperatorContainerName pod.Spec.Containers with
          | some image => { image := image, err := none, events := [.get (selfKey env r)] }
          | none =>
              { image := "",
                err := some (.errorString ("failed to get container image for "
                  ++ P.LVMOperatorContainerName ++ " in pod " ++ Getenv env "POD_NAME")),
                events := [.get (selfKey env r)] } := by
  simp only [getRunningPodImage, if_neg hname, selfKey, Errorf, sprintf_get_pod,
    sprintf_container_image]

/-- What a successful `newVGManagerDaemonset` has built, for some image. -/
theorem newVGManagerDaemonset_built (P : Package) (env : Environ) (r : LVMClusterReconciler)
    (ctx : Context) (lvmCluster : LVMCluster)
    (h : (newVGManagerDaemonset P env r ctx lvmCluster).err = none) :
    ∃ image : String,
      (newVGManagerDaemonset P env r ctx lvmCluster).ds.Spec.Selector
        = some { MatchLabels :=
            [("app", P.VGManagerUnit), ("topolvm.io/lvmcluster", lvmCluster.Name)] } ∧
      (newVGManagerDaemonset P env r ctx lvmCluster).ds.Spec.Template.ObjectMeta.Labels
        = [("app", P.VGManagerUnit), ("topolvm.io/lvmcluster", lvmCluster.Name)] ∧
      (newVGManagerDaemonset P env r ctx lvmCluster).ds.Spec.Template.Spec.Volumes
        = [LVMDConfVol, DevHostDirVol, UDevHostDirVol, SysHostDirVol] ∧
      (newVGManagerDaemonset P env r ctx lvmCluster).ds.Spec.Template.Spec.HostPID = true ∧
      (newVGManagerDaemonset P env r ctx lvmCluster).ds.Spec.Template.Spec.Containers
        = [{ Name := P.VGManagerUnit,
             Image := image,
             Command := ["/vgmanager"],
             SecurityContext := some { Privileged := some true, RunAsUser := some 0 },
             VolumeMounts :=
               [LVMDConfVolMount, DevHostDirVolMount, UDevHostDirVolMount, SysHostDirVolMount],
             Env :=
               [{ Name := "NODE_NAME",
                  ValueFrom := some { FieldRef := some { FieldPath := "spec.nodeName" } } },
                { Name := "POD_NAMESPACE",
                  ValueFrom := some { FieldRef := some { FieldPath := "metadata.namespace" } } },
                { Name := "POD_NAME",
                  ValueFrom := some { FieldRef := some { FieldPath := "metadata.name" } } }] }] := by
  rcases hx : P.extractNodeSelectorAndTolerations lvmCluster with ⟨sel, tol⟩
  unfold newVGManagerDaemonset at h ⊢
  simp only [hx] at h ⊢
  split at h
  · simp at h
  · rename_i hl
    simp only [hl]
    cases sel <;> simp [setDaemonsetNodeSelector]

/-! ## Image resolution: `getRunningPodImage` -/

/-- C3: with a non-empty POD_NAME and a fetched pod that has a container named
`LVMOperatorContainerName`, `getRunningPodImage` returns, with a nil error, the
image of the first such container in list order, whatever containers come
before (with other names) or after (with any name and image); the only call
made is the fetch of the pod. -/
theorem getRunningPodImage_first_match (P : Package) (env : Environ) (r : LVMClusterReconciler)
    (ctx : Context) (pod : Pod) (pre post : List Container) (c : Container)
    (hname : Getenv env "POD_NAME" ≠ "")
    (hget : r.Get ctx (selfKey env r) = .ok pod)
    (hpod : pod.Spec.Containers = pre ++ c :: post)
    (hpre : ∀ d ∈ pre, d.Name ≠ P.LVMOperatorContainerName)
    (hc : c.Name = P.LVMOperatorContainerName) :
    getRunningPodImage P env r ctx
      = { image := c.Image, err := none, events := [.get (selfKey env r)] } := by
  rw [getRunningPodImage_eq P env r ctx hname, hget]
  simp only [hpod, findContainerImage_first _ pre post c hpre hc]

/-- The example of C3: POD_NAME is "op-123", the pod has a side container,
the operator's container with image "registry/x:tag" and a later container of
the same name with another image; the image returned is "registry/x:tag". -/
theorem getRunningPodImage_first_match_witness :
    getRunningPodImage operatorPackage (envOf [("POD_NAME", "op-123")])
        (reconcilerWith (podOf [{ Name := "kube-rbac-proxy", Image := "registry/proxy:v1" },
          { Name := "manager", Image := "registry/x:tag" },
          { Name := "manager", Image := "registry/other:tag" }])) {}
      = { image := "registry/x:tag", err := none,
          events := [.get { Name := "op-123", Namespace := "lvm-ns" }] } :=
  getRunningPodImage_first_match operatorPackage (envOf [("POD_NAME", "op-123")])
    (reconcilerWith (podOf [{ Name := "kube-rbac-proxy", Image := "registry/proxy:v1" },
      { Name := "manager", Image := "registry/x:tag" },
      { Name := "manager", Image := "registry/other:tag" }])) {}
    (podOf [{ Name := "kube-rbac-proxy", Image := "registry/proxy:v1" },
      { Name := "manager", Image := "registry/x:tag" },
      { Name := "manager", Image := "registry/other:tag" }])
    [{ Name := "kube-rbac-proxy", Image := "registry/proxy:v1" }]
    [{ Name := "manager", Image := "registry/other:tag" }]
    { Name := "manager", Image := "registry/x:tag" }
    (by decide) rfl rfl (by decide) rfl

/-- C4: with a non-empty POD_NAME and a fetched pod none of whose containers
is named `LVMOperatorContainerName` (an empty container list included),
`getRunningPodImage` returns the empty string and a non-nil error whose message
is "failed to get container image for <container name> in pod <pod name>", so
it contains both the expected container name and the pod name. -/
theorem getRunningPodImage_container_not_found (P : Package) (env : Environ)
    (r : LVMClusterReconciler) (ctx : Context) (pod : Pod)
    (hname : Getenv env "POD_NAME" ≠ "")
    (hget : r.Get ctx (selfKey env r) = .ok pod)
    (hno : ∀ d ∈ pod.Spec.Containers, d.Name ≠ P.LVMOperatorContainerName) :
    (getRunningPodImage P env r ctx).image = "" ∧
      (getRunningPodImage P env r ctx).err
        = some (.errorString ("failed to get container image for "
            ++ P.LVMOperatorContainerName ++ " in pod " ++ Getenv env "POD_NAME")) ∧
      Contains ("failed to get container image for " ++ P.LVMOperatorContainerName
        ++ " in pod " ++ Getenv env "POD_NAME") P.LVMOperatorContainerName ∧
      Contains ("failed to get container image for " ++ P.LVMOperatorContainerName
        ++ " in pod " ++ Getenv env "POD_NAME") (Getenv env "POD_NAME") := by
  have hres : getRunningPodImage P env r ctx
      = { image := "",
          err := some (.errorString ("failed to get container image for "
            ++ P.LVMOperatorContainerName ++ " in pod " ++ Getenv env "POD_NAME")),
          events := [.get (selfKey env r)] } := by
    rw [getRunningPodImage_eq P env r ctx hname, hget]
    simp only [findContainerImage_none _ _ hno]
  rw [hres]
  exact ⟨rfl, rfl, contains_mid_end _ _ _ _, contains_end _ _⟩

/-- The example of C4: POD_NAME is "op-123" and the fetched pod has an empty
container list; the message is "failed to get container image for manager in
pod op-123". -/
theorem getRunningPodImage_container_not_found_witness :
    (getRunningPodImage operatorPackage (envOf [("POD_NAME", "op-123")])
        (reconcilerWith (podOf [])) {}).image = "" ∧
      (getRunningPodImage operatorPackage (envOf [("POD_NAME", "op-123")])
        (reconcilerWith (podOf [])) {}).err
        = some (.errorString ("failed to get container image for "
            ++ operatorPackage.LVMOperatorContainerName ++ " in pod "
            ++ Getenv (envOf [("POD_NAME", "op-123")]) "POD_NAME")) ∧
      Contains ("failed to get container image for " ++ operatorPackage.LVMOperatorContainerName
        ++ " in pod " ++ Getenv (envOf [("POD_NAME", "op-123")]) "POD_NAME")
        operatorPackage.LVMOperatorContainerName ∧
      Contains ("failed to get container image for " ++ operatorPackage.LVMOperatorContainerName
        ++ " in pod " ++ Getenv (envOf [("POD_NAME", "op-123")]) "POD_NAME")
        (Getenv (envOf [("POD_NAME", "op-123")]) "POD_NAME") :=
  getRunningPodImage_container_not_found operatorPackage (envOf [("POD_NAME", "op-123")])
    (reconcilerWith (podOf [])) {} (podOf []) (by decide) rfl (by simp [podOf])

/-- C5: when POD_NAME is empty or unset, `getRunningPodImage` returns the empty
string and the error "failed to get pod name env variable" and makes no call at
all, whatever the client of the reconciler would answer; and when the override
variable VGMANAGER_IMAGE is empty as well, `newVGManagerDaemonset` fails with
that same error. -/
theorem getRunningPodImage_missing_pod_name (P : Package) (env : Environ)
    (r : LVMClusterReconciler) (ctx : Context) (lvmCluster : LVMCluster)
    (hname : Getenv env "POD_NAME" = "") :
    getRunningPodImage P env r ctx
        = { image := "", err := some (.errorString "failed to get pod name env variable"),
            events := [] } ∧
      (Getenv env "VGMANAGER_IMAGE" = "" →
        (newVGManagerDaemonset P env r ctx lvmCluster).err
          = some (.errorString "failed to get pod name env variable")) := by
  have h : getRunningPodImage P env r ctx
      = { image := "", err := some (.errorString "failed to get pod name env variable"),
          events := [] } := by
    simp only [getRunningPodImage, hname, if_true, Errorf, sprintf_pod_name]
  refine ⟨h, fun himg => ?_⟩
  simp [newVGManagerDaemonset, himg, h]

/-- The example of C5: an environment without any variable and a client that
would have answered with the operator's pod. -/
theorem getRunningPodImage_missing_pod_name_witness :
    getRunningPodImage operatorPackage (envOf [])
        (reconcilerWith (podOf [{ Name := "manager", Image := "registry/x:tag" }])) {}
        = { image := "", err := some (.errorString "failed to get pod name env variable"),
            events := [] } ∧
      (Getenv (envOf []) "VGMANAGER_IMAGE" = "" →
        (newVGManagerDaemonset operatorPackage (envOf [])
          (reconcilerWith (podOf [{ Name := "manager", Image := "registry/x:tag" }])) {}
          { Name := "cluster-1" }).err
          = some (.errorString "failed to get pod name env variable")) :=
  getRunningPodImage_missing_pod_name operatorPackage (envOf [])
    (reconcilerWith (podOf [{ Name := "manager", Image := "registry/x:tag" }])) {}
    { Name := "cluster-1" } rfl

/-- C6, as the spec states it, fails: POD_NAME is "op-123", the namespace is
"lvm-ns" and the fetch fails with the error "connection refused"; the error
returned is the plain text "failed to get pod op-123 in namespace lvm-ns",
unwrapping it gives nothing and it does not wrap the error of the fetch. -/
theorem getRunningPodImage_lookup_error_not_wrapped :
    (getRunningPodImage operatorPackage (envOf [("POD_NAME", "op-123")])
        (reconcilerFailing (.errorString "connection refused")) {}).err
        = some (.errorString "failed to get pod op-123 in namespace lvm-ns") ∧
      GoError.Unwrap (.errorString "failed to get pod op-123 in namespace lvm-ns") = none ∧
      ¬ GoError.Wraps (.errorString "failed to get pod op-123 in namespace lvm-ns")
          (.errorString "connection refused") :=
  ⟨by decide, rfl, fun h => h⟩

/-- C6, amended: with a non-empty POD_NAME, whatever error the fetch of the pod
returns, `getRunningPodImage` returns the empty string and a non-nil error
whose message is "failed to get pod <pod name> in namespace <namespace>", so it
contains both the pod name and the namespace; the error returned has nothing
to unwrap and wraps no error, the error of the fetch included. -/
theorem getRunningPodImage_lookup_failed (P : Package) (env : Environ)
    (r : LVMClusterReconciler) (ctx : Context) (e : GoError)
    (hname : Getenv env "POD_NAME" ≠ "")
    (hget : r.Get ctx (selfKey env r) = .error e) :
    (getRunningPodImage P env r ctx).image = "" ∧
      (getRunningPodImage P env r ctx).err
        = some (.errorString ("failed to get pod " ++ Getenv env "POD_NAME"
            ++ " in namespace " ++ r.Namespace)) ∧
      Contains ("failed to get pod " ++ Getenv env "POD_NAME" ++ " in namespace "
        ++ r.Namespace) (Getenv env "POD_NAME") ∧
      Contains ("failed to get pod " ++ Getenv env "POD_NAME" ++ " in namespace "
        ++ r.Namespace) r.Namespace ∧
      GoError.Unwrap (.errorString ("failed to get pod " ++ Getenv env "POD_NAME"
        ++ " in namespace " ++ r.Namespace)) = none ∧
      ¬ GoError.Wraps (.errorString ("failed to get pod " ++ Getenv env "POD_NAME"
        ++ " in namespace " ++ r.Namespace)) e := by
  rw [getRunningPodImage_eq P env r ctx hname, hget]
  exact ⟨rfl, rfl, contains_mid_end _ _ _ _, contains_end _ _, rfl, fun h => h⟩

/-- The example of amended C6: POD_NAME is "op-123", the namespace is "lvm-ns"
and the fetch fails with "connection refused". -/
theorem getRunningPodImage_lookup_failed_witness :
    (getRunningPodImage operatorPackage (envOf [("POD_NAME", "op-123")])
        (reconcilerFailing (.errorString "connection refused")) {}).image = "" ∧
      (getRunningPodImage operatorPackage (envOf [("POD_NAME", "op-123")])
        (reconcilerFailing (.errorString "connection refused")) {}).err
        = some (.errorString ("failed to get pod "
            ++ Getenv (envOf [("POD_NAME", "op-123")]) "POD_NAME" ++ " in namespace "
            ++ (reconcilerFailing (.errorString "connection refused")).Namespace)) ∧
      Contains ("failed to get pod " ++ Getenv (envOf [("POD_NAME", "op-123")]) "POD_NAME"
        ++ " in namespace " ++ (reconcilerFailing (.errorString "connection refused")).Namespace)
        (Getenv (envOf [("POD_NAME", "op-123")]) "POD_NAME") ∧
      Contains ("failed to get pod " ++ Getenv (envOf [("POD_NAME", "op-123")]) "POD_NAME"
        ++ " in namespace " ++ (reconcilerFailing (.errorString "connection refused")).Namespace)
        (reconcilerFailing (.errorString "connection refused")).Namespace ∧
      GoError.Unwrap (.errorString ("failed to get pod "
        ++ Getenv (envOf [("POD_NAME", "op-123")]) "POD_NAME" ++ " in namespace "
        ++ (reconcilerFailing (.errorString "connection refused")).Namespace)) = none ∧
      ¬ GoError.Wraps (.errorString ("failed to get pod "
        ++ Getenv (envOf [("POD_NAME", "op-123")]) "POD_NAME" ++ " in namespace "
        ++ (reconcilerFailing (.errorString "connection refused")).Namespace))
        (.errorString "connection refused") :=
  getRunningPodImage_lookup_failed operatorPackage (envOf [("POD_NAME", "op-123")])
    (reconcilerFailing (.errorString "connection refused")) {}
    (.errorString "connection refused") (by decide) rfl

/-! ## The daemonset: `newVGManagerDaemonset` -/

/-- C1: when the override variable VGMANAGER_IMAGE has a non-empty value X,
whatever the rest of the environment (POD_NAME unset included), the cluster and
the client of the reconciler, `newVGManagerDaemonset` returns a nil error and a
daemonset whose single container has image X; the only call it makes is the
`Log.Info`, so `r.Get` is not called, and the result is the same with any other
client in place of the reconciler's. -/
theorem newVGManagerDaemonset_override (P : Package) (env : Environ) (r : LVMClusterReconciler)
    (ctx : Context) (lvmCluster : LVMCluster) (X : String) (hX : X ≠ "")
    (henv : Getenv env "VGMANAGER_IMAGE" = X) :
    (newVGManagerDaemonset P env r ctx lvmCluster).err = none ∧
      (∃ c : Container,
        (newVGManagerDaemonset P env r ctx lvmCluster).ds.Spec.Template.Spec.Containers = [c] ∧
        c.Image = X) ∧
      (newVGManagerDaemonset P env r ctx lvmCluster).events
        = [.logInfo "creating VG manager deployment" ["image", X]] ∧
      (∀ key, Event.get key ∉ (newVGManagerDaemonset P env r ctx lvmCluster).events) ∧
      (∀ get' ctx', newVGManagerDaemonset P env { r with Get := get' } ctx' lvmCluster
        = newVGManagerDaemonset P env r ctx lvmCluster) := by
  subst henv
  rcases hx : P.extractNodeSelectorAndTolerations lvmCluster with ⟨sel, tol⟩
  cases sel <;> simp [newVGManagerDaemonset, hX, hx, setDaemonsetNodeSelector]

/-- The example of C1: the override is "registry/vgmanager:v1", POD_NAME is not
set and the client fails every fetch. -/
theorem newVGManagerDaemonset_override_witness :
    (newVGManagerDaemonset operatorPackage (envOf [("VGMANAGER_IMAGE", "registry/vgmanager:v1")])
        (reconcilerFailing (.errorString "connection refused")) {} { Name := "cluster-1" }).err
        = none ∧
      (∃ c : Container,
        (newVGManagerDaemonset operatorPackage
          (envOf [("VGMANAGER_IMAGE", "registry/vgmanager:v1")])
          (reconcilerFailing (.errorString "connection refused")) {}
          { Name := "cluster-1" }).ds.Spec.Template.Spec.Containers = [c] ∧
        c.Image = "registry/vgmanager:v1") ∧
      (newVGManagerDaemonset operatorPackage (envOf [("VGMANAGER_IMAGE", "registry/vgmanager:v1")])
        (reconcilerFailing (.errorString "connection refused")) {} { Name := "cluster-1" }).events
        = [.logInfo "creating VG manager deployment" ["image", "registry/vgmanager:v1"]] ∧
      (∀ key, Event.get key ∉
        (newVGManagerDaemonset operatorPackage
          (envOf [("VGMANAGER_IMAGE", "registry/vgmanager:v1")])
          (reconcilerFailing (.errorString "connection refused")) {}
          { Name := "cluster-1" }).events) ∧
      (∀ get' ctx', newVGManagerDaemonset operatorPackage
          (envOf [("VGMANAGER_IMAGE", "registry/vgmanager:v1")])
          { reconcilerFailing (.errorString "connection refused") with Get := get' } ctx'
          { Name := "cluster-1" }
        = newVGManagerDaemonset operatorPackage
          (envOf [("VGMANAGER_IMAGE", "registry/vgmanager:v1")])
          (reconcilerFailing (.errorString "connection refused")) {} { Name := "cluster-1" }) :=
  newVGManagerDaemonset_override operatorPackage
    (envOf [("VGMANAGER_IMAGE", "registry/vgmanager:v1")])
    (reconcilerFailing (.errorString "connection refused")) {} { Name := "cluster-1" }
    "registry/vgmanager:v1" (by decide) rfl

/-- C2, as the spec states it, fails: the override is not set, POD_NAME is
"op-123" and the fetched pod has the operator's container with an empty image;
`newVGManagerDaemonset` returns a nil error and a daemonset whose container
has the empty image. -/
theorem newVGManagerDaemonset_empty_image :
    (newVGManagerDaemonset operatorPackage (envOf [("POD_NAME", "op-123")])
        (reconcilerWith (podOf [{ Name := "manager", Image := "" }])) {}
        { Name := "cluster-1" }).err = none ∧
      (newVGManagerDaemonset operatorPackage (envOf [("POD_NAME", "op-123")])
        (reconcilerWith (podOf [{ Name := "manager", Image := "" }])) {}
        { Name := "cluster-1" }).ds.Spec.Template.Spec.Containers.map (fun c => c.Image)
        = [""] := by
  decide

/-- C2, amended: whenever `newVGManagerDaemonset` returns a nil error, the
daemonset has one container and its image is either the non-empty value of the
override variable VGMANAGER_IMAGE, or, the override being empty, the image of a
container named `LVMOperatorContainerName` of the pod that was fetched under
POD_NAME in the reconciler's namespace; no other image is ever put in. -/
theorem newVGManagerDaemonset_image_origin (P : Package) (env : Environ)
    (r : LVMClusterReconciler) (ctx : Context) (lvmCluster : LVMCluster)
    (h : (newVGManagerDaemonset P env r ctx lvmCluster).err = none) :
    ∃ c : Container,
      (newVGManagerDaemonset P env r ctx lvmCluster).ds.Spec.Template.Spec.Containers = [c] ∧
      ((c.Image = Getenv env "VGMANAGER_IMAGE" ∧ c.Image ≠ "") ∨
        (Getenv env "VGMANAGER_IMAGE" = "" ∧
          ∃ pod : Pod, r.Get ctx (selfKey env r) = .ok pod ∧
            ∃ c' ∈ pod.Spec.Containers,
              c'.Name = P.LVMOperatorContainerName ∧ c.Image = c'.Image)) := by
  rcases hx : P.extractNodeSelectorAndTolerations lvmCluster with ⟨sel, tol⟩
  by_cases himg : Getenv env "VGMANAGER_IMAGE" = ""
  · by_cases hname : Getenv env "POD_NAME" = ""
    · have hg := (getRunningPodImage_missing_name_eq P env r ctx hname)
      simp [newVGManagerDaemonset, himg, hg] at h
    · have hg := getRunningPodImage_eq P env r ctx hname
      cases hget : r.Get ctx (selfKey env r) with
      | error e =>
          rw [hget] at hg
          simp [newVGManagerDaemonset, himg, hg] at h
      | ok pod =>
          rw [hget] at hg
          cases hfind : findContainerImage P.LVMOperatorContainerName pod.Spec.Containers with
          | none =>
              simp only [hfind] at hg
              simp [newVGManagerDaemonset, himg, hg] at h
          | some image =>
              simp only [hfind] at hg
              obtain ⟨c', hc', hn, hi⟩ := findContainerImage_some _ _ _ hfind
              cases sel <;>
                simp [newVGManagerDaemonset, himg, hg, hx, setDaemonsetNodeSelector] <;>
                exact ⟨c', hc', hn, hi.symm⟩
  · cases sel <;> simp [newVGManagerDaemonset, himg, hx, setDaemonsetNodeSelector]

/-- The example of amended C2: the override is not set, POD_NAME is "op-123"
and the fetched pod has the operator's container with image
"registry/x:tag". -/
theorem newVGManagerDaemonset_image_origin_witness :
    ∃ c : Container,
      (newVGManagerDaemonset operatorPackage (envOf [("POD_NAME", "op-123")])
        (reconcilerWith (podOf [{ Name := "manager", Image := "registry/x:tag" }])) {}
        { Name := "cluster-1" }).ds.Spec.Template.Spec.Containers = [c] ∧
      ((c.Image = Getenv (envOf [("POD_NAME", "op-123")]) "VGMANAGER_IMAGE" ∧ c.Image ≠ "") ∨
        (Getenv (envOf [("POD_NAME", "op-123")]) "VGMANAGER_IMAGE" = "" ∧
          ∃ pod : Pod,
            (reconcilerWith (podOf [{ Name := "manager", Image := "registry/x:tag" }])).Get {}
              (selfKey (envOf [("POD_NAME", "op-123")])
                (reconcilerWith (podOf [{ Name := "manager", Image := "registry/x:tag" }])))
              = .ok pod ∧
            ∃ c' ∈ pod.Spec.Containers,
              c'.Name = operatorPackage.LVMOperatorContainerName ∧ c.Image = c'.Image)) :=
  newVGManagerDaemonset_image_origin operatorPackage (envOf [("POD_NAME", "op-123")])
    (reconcilerWith (podOf [{ Name := "manager", Image := "registry/x:tag" }])) {}
    { Name := "cluster-1" } (by decide)

/-- C7: when the override variable is empty and `getRunningPodImage` fails with
the error e, `newVGManagerDaemonset` returns that very error e together with
the zero-value daemonset; and in every run in which `newVGManagerDaemonset`
returns a non-nil error, the override variable is empty and the error is the
one `getRunningPodImage` returned. -/
theorem newVGManagerDaemonset_error (P : Package) (env : Environ) (r : LVMClusterReconciler)
    (ctx : Context) (lvmCluster : LVMCluster) (e : GoError)
    (himg : Getenv env "VGMANAGER_IMAGE" = "")
    (hfail : (getRunningPodImage P env r ctx).err = some e) :
    (newVGManagerDaemonset P env r ctx lvmCluster).err = some e ∧
      (newVGManagerDaemonset P env r ctx lvmCluster).ds = {} ∧
      (∀ (env' : Environ) (r' : LVMClusterReconciler) (ctx' : Context) (c' : LVMCluster)
          (e' : GoError),
        (newVGManagerDaemonset P env' r' ctx' c').err = some e' →
          Getenv env' "VGMANAGER_IMAGE" = "" ∧ (getRunningPodImage P env' r' ctx').err = some e' ∧
            (newVGManagerDaemonset P env' r' ctx' c').ds = {}) := by
  refine ⟨?_, ?_, ?_⟩
  · simp [newVGManagerDaemonset, himg, hfail]
  · simp [newVGManagerDaemonset, himg, hfail]
  · intro env' r' ctx' c' e' h
    by_cases himg' : Getenv env' "VGMANAGER_IMAGE" = ""
    · cases hg : (getRunningPodImage P env' r' ctx').err with
      | none => simp [newVGManagerDaemonset, himg', hg] at h
      | some e'' =>
          simp [newVGManagerDaemonset, himg', hg] at h ⊢
          exact h
    · simp [newVGManagerDaemonset, himg'] at h

/-- The example of C7: nothing is set in the environment, so
`getRunningPodImage` fails with "failed to get pod name env variable". -/
theorem newVGManagerDaemonset_error_witness :
    (newVGManagerDaemonset operatorPackage (envOf []) (reconcilerWith (podOf [])) {}
        { Name := "cluster-1" }).err
        = some (.errorString "failed to get pod name env variable") ∧
      (newVGManagerDaemonset operatorPackage (envOf []) (reconcilerWith (podOf [])) {}
        { Name := "cluster-1" }).ds = {} ∧
      (∀ (env' : Environ) (r' : LVMClusterReconciler) (ctx' : Context) (c' : LVMCluster)
          (e' : GoError),
        (newVGManagerDaemonset operatorPackage env' r' ctx' c').err = some e' →
          Getenv env' "VGMANAGER_IMAGE" = "" ∧
            (getRunningPodImage operatorPackage env' r' ctx').err = some e' ∧
            (newVGManagerDaemonset operatorPackage env' r' ctx' c').ds = {}) :=
  newVGManagerDaemonset_error operatorPackage (envOf []) (reconcilerWith (podOf [])) {}
    { Name := "cluster-1" } (.errorString "failed to get pod name env variable") rfl (by decide)

/-- C8: for a cluster named N and a successful build, the pod selector's
MatchLabels and the pod template's labels are the same map, which holds
`VGManagerUnit` under "app", N under "topolvm.io/lvmcluster" and nothing
else; every volume the container mounts is a volume of the pod; and the
container's security context has Privileged = true and RunAsUser = 0. -/
theorem newVGManagerDaemonset_labels_mounts_security (P : Package) (env : Environ)
    (r : LVMClusterReconciler) (ctx : Context) (lvmCluster : LVMCluster)
    (h : (newVGManagerDaemonset P env r ctx lvmCluster).err = none) :
    ∃ (sel : LabelSelector) (c : Container),
      (newVGManagerDaemonset P env r ctx lvmCluster).ds.Spec.Selector = some sel ∧
      sel.MatchLabels
        = (newVGManagerDaemonset P env r ctx lvmCluster).ds.Spec.Template.ObjectMeta.Labels ∧
      sel.MatchLabels = [("app", P.VGManagerUnit), ("topolvm.io/lvmcluster", lvmCluster.Name)] ∧
      (∀ k : String, GoMap.get sel.MatchLabels k
        = if k = "app" then some P.VGManagerUnit
          else if k = "topolvm.io/lvmcluster" then some lvmCluster.Name else none) ∧
      (newVGManagerDaemonset P env r ctx lvmCluster).ds.Spec.Template.Spec.Containers = [c] ∧
      (∀ n ∈ mountNames c,
        n ∈ volumeNames (newVGManagerDaemonset P env r ctx lvmCluster).ds.Spec.Template.Spec) ∧
      c.SecurityContext = some { Privileged := some true, RunAsUser := some 0 } := by
  obtain ⟨image, hsel, hlab, hvol, -, hcs⟩ := newVGManagerDaemonset_built P env r ctx lvmCluster h
  refine ⟨_, _, hsel, hlab.symm, rfl, ?_, hcs, ?_, rfl⟩
  · intro k
    by_cases h1 : k = "app"
    · subst h1
      simp [GoMap.get]
    · by_cases h2 : k = "topolvm.io/lvmcluster"
      · subst h2
        simp [GoMap.get]
      · have h1' : ¬ "app" = k := fun hk => h1 hk.symm
        have h2' : ¬ "topolvm.io/lvmcluster" = k := fun hk => h2 hk.symm
        simp [GoMap.get, h1, h2, h1', h2']
  · intro n hn
    simp only [volumeNames, hvol]
    simpa [mountNames, LVMDConfVolMount, DevHostDirVolMount, UDevHostDirVolMount,
      SysHostDirVolMount, LVMDConfVol, DevHostDirVol, UDevHostDirVol, SysHostDirVol] using hn

/-- The example of C8: cluster "cluster-1" with the override image set. -/
theorem newVGManagerDaemonset_labels_mounts_security_witness :
    ∃ (sel : LabelSelector) (c : Container),
      (newVGManagerDaemonset operatorPackage
        (envOf [("VGMANAGER_IMAGE", "registry/vgmanager:v1")]) (reconcilerWith (podOf [])) {}
        { Name := "cluster-1" }).ds.Spec.Selector = some sel ∧
      sel.MatchLabels
        = (newVGManagerDaemonset operatorPackage
            (envOf [("VGMANAGER_IMAGE", "registry/vgmanager:v1")]) (reconcilerWith (podOf [])) {}
            { Name := "cluster-1" }).ds.Spec.Template.ObjectMeta.Labels ∧
      sel.MatchLabels = [("app", operatorPackage.VGManagerUnit),
        ("topolvm.io/lvmcluster", ({ Name := "cluster-1" } : LVMCluster).Name)] ∧
      (∀ k : String, GoMap.get sel.MatchLabels k
        = if k = "app" then some operatorPackage.VGManagerUnit
          else if k = "topolvm.io/lvmcluster" then some ({ Name := "cluster-1" } : LVMCluster).Name
          else none) ∧
      (newVGManagerDaemonset operatorPackage
        (envOf [("VGMANAGER_IMAGE", "registry/vgmanager:v1")]) (reconcilerWith (podOf [])) {}
        { Name := "cluster-1" }).ds.Spec.Template.Spec.Containers = [c] ∧
      (∀ n ∈ mountNames c,
        n ∈ volumeNames (newVGManagerDaemonset operatorPackage
          (envOf [("VGMANAGER_IMAGE", "registry/vgmanager:v1")]) (reconcilerWith (podOf [])) {}
          { Name := "cluster-1" }).ds.Spec.Template.Spec) ∧
      c.SecurityContext = some { Privileged := some true, RunAsUser := some 0 } :=
  newVGManagerDaemonset_labels_mounts_security operatorPackage
    (envOf [("VGMANAGER_IMAGE", "registry/vgmanager:v1")]) (reconcilerWith (podOf [])) {}
    { Name := "cluster-1" } (by decide)

/-- C9, as the spec states it, fails: in the daemonset built for cluster
"cluster-1" with the override image set, the mounts of the udev database
"run-udev" and of sysfs "sys" carry the mount propagation "HostToContainer",
as the other two do. -/
theorem newVGManagerDaemonset_udev_sys_propagation :
    (newVGManagerDaemonset operatorPackage
        (envOf [("VGMANAGER_IMAGE", "registry/vgmanager:v1")]) (reconcilerWith (podOf [])) {}
        { Name := "cluster-1" }).err = none ∧
      (newVGManagerDaemonset operatorPackage
        (envOf [("VGMANAGER_IMAGE", "registry/vgmanager:v1")]) (reconcilerWith (podOf [])) {}
        { Name := "cluster-1" }).ds.Spec.Template.Spec.Containers.map
          (fun c => c.VolumeMounts.map (fun m => (m.Name, m.MountPath, m.MountPropagation)))
        = [[("lvmd-conf", "/etc/topolvm", some "HostToContainer"),
            ("device-dir", "/dev", some "HostToContainer"),
            ("run-udev", "/run/udev", some "HostToContainer"),
            ("sys", "/sys", some "HostToContainer")]] := by
  decide

/-- C9, amended: a successful build has exactly four host-path volumes and one
container with four mounts, in the order config dir, device tree, udev
database, sysfs, each mount named as its volume and mounted at the host path
of the volume: "/etc/topolvm" with host-path type DirectoryOrCreate, "/dev"
with host-path type Directory, "/run/udev" and "/sys" without a host-path
type; all four mounts carry the host-to-container propagation. -/
theorem newVGManagerDaemonset_volumes (P : Package) (env : Environ)
    (r : LVMClusterReconciler) (ctx : Context) (lvmCluster : LVMCluster)
    (h : (newVGManagerDaemonset P env r ctx lvmCluster).err = none) :
    (newVGManagerDaemonset P env r ctx lvmCluster).ds.Spec.Template.Spec.Volumes
        = [{ Name := "lvmd-conf",
             VolumeSource :=
               { HostPath := some { Path := "/etc/topolvm", Type_ := some "DirectoryOrCreate" } } },
           { Name := "device-dir",
             VolumeSource := { HostPath := some { Path := "/dev", Type_ := some "Directory" } } },
           { Name := "run-udev",
             VolumeSource := { HostPath := some { Path := "/run/udev", Type_ := none } } },
           { Name := "sys",
             VolumeSource := { HostPath := some { Path := "/sys", Type_ := none } } }] ∧
      (newVGManagerDaemonset P env r ctx lvmCluster).ds.Spec.Template.Spec.Containers.map
          (fun c => c.VolumeMounts)
        = [[{ Name := "lvmd-conf", MountPath := "/etc/topolvm",
              MountPropagation := some "HostToContainer" },
            { Name := "device-dir", MountPath := "/dev",
              MountPropagation := some "HostToContainer" },
            { Name := "run-udev", MountPath := "/run/udev",
              MountPropagation := some "HostToContainer" },
            { Name := "sys", MountPath := "/sys",
              MountPropagation := some "HostToContainer" }]] := by
  obtain ⟨image, -, -, hvol, -, hcs⟩ := newVGManagerDaemonset_built P env r ctx lvmCluster h
  rw [hvol, hcs]
  exact ⟨rfl, rfl⟩

/-- The example of amended C9: cluster "cluster-1" with the override image
set. -/
theorem newVGManagerDaemonset_volumes_witness :
    (newVGManagerDaemonset operatorPackage
        (envOf [("VGMANAGER_IMAGE", "registry/vgmanager:v1")]) (reconcilerWith (podOf [])) {}
        { Name := "cluster-1" }).ds.Spec.Template.Spec.Volumes
        = [{ Name := "lvmd-conf",
             VolumeSource :=
               { HostPath := some { Path := "/etc/topolvm", Type_ := some "DirectoryOrCreate" } } },
           { Name := "device-dir",
             VolumeSource := { HostPath := some { Path := "/dev", Type_ := some "Directory" } } },
           { Name := "run-udev",
             VolumeSource := { HostPath := some { Path := "/run/udev", Type_ := none } } },
           { Name := "sys",
             VolumeSource := { HostPath := some { Path := "/sys", Type_ := none } } }] ∧
      (newVGManagerDaemonset operatorPackage
        (envOf [("VGMANAGER_IMAGE", "registry/vgmanager:v1")]) (reconcilerWith (podOf [])) {}
        { Name := "cluster-1" }).ds.Spec.Template.Spec.Containers.map
          (fun c => c.VolumeMounts)
        = [[{ Name := "lvmd-conf", MountPath := "/etc/topolvm",
              MountPropagation := some "HostToContainer" },
            { Name := "device-dir", MountPath := "/dev",
              MountPropagation := some "HostToContainer" },
            { Name := "run-udev", MountPath := "/run/udev",
              MountPropagation := some "HostToContainer" },
            { Name := "sys", MountPath := "/sys",
              MountPropagation := some "HostToContainer" }]] :=
  newVGManagerDaemonset_volumes operatorPackage
    (envOf [("VGMANAGER_IMAGE", "registry/vgmanager:v1")]) (reconcilerWith (podOf [])) {}
    { Name := "cluster-1" } (by decide)

/-- C10: a successful build has exactly one container in the pod template; its
command is the single element "/vgmanager" and it has no args; its environment
is the three variables NODE_NAME, POD_NAMESPACE, POD_NAME in this order, each
without a literal value and with a field reference to spec.nodeName,
metadata.namespace and metadata.name respectively; and the pod spec has
HostPID = true. -/
theorem newVGManagerDaemonset_container (P : Package) (env : Environ)
    (r : LVMClusterReconciler) (ctx : Context) (lvmCluster : LVMCluster)
    (h : (newVGManagerDaemonset P env r ctx lvmCluster).err = none) :
    ∃ c : Container,
      (newVGManagerDaemonset P env r ctx lvmCluster).ds.Spec.Template.Spec.Containers = [c] ∧
      c.Command = ["/vgmanager"] ∧
      c.Args = [] ∧
      c.Env
        = [{ Name := "NODE_NAME", Value := "",
             ValueFrom := some { FieldRef := some { FieldPath := "spec.nodeName" } } },
           { Name := "POD_NAMESPACE", Value := "",
             ValueFrom := some { FieldRef := some { FieldPath := "metadata.namespace" } } },
           { Name := "POD_NAME", Value := "",
             ValueFrom := some { FieldRef := some { FieldPath := "metadata.name" } } }] ∧
      (newVGManagerDaemonset P env r ctx lvmCluster).ds.Spec.Template.Spec.HostPID = true := by
  obtain ⟨image, -, -, -, hpid, hcs⟩ := newVGManagerDaemonset_built P env r ctx lvmCluster h
  exact ⟨_, hcs, rfl, rfl, rfl, hpid⟩

/-- The example of C10: cluster "cluster-1", the image taken from the
operator's pod "op-123". -/
theorem newVGManagerDaemonset_container_witness :
    ∃ c : Container,
      (newVGManagerDaemonset operatorPackage (envOf [("POD_NAME", "op-123")])
        (reconcilerWith (podOf [{ Name := "manager", Image := "registry/x:tag" }])) {}
        { Name := "cluster-1" }).ds.Spec.Template.Spec.Containers = [c] ∧
      c.Command = ["/vgmanager"] ∧
      c.Args = [] ∧
      c.Env
        = [{ Name := "NODE_NAME", Value := "",
             ValueFrom := some { FieldRef := some { FieldPath := "spec.nodeName" } } },
           { Name := "POD_NAMESPACE", Value := "",
             ValueFrom := some { FieldRef := some { FieldPath := "metadata.namespace" } } },
           { Name := "POD_NAME", Value := "",
             ValueFrom := some { FieldRef := some { FieldPath := "metadata.name" } } }] ∧
      (newVGManagerDaemonset operatorPackage (envOf [("POD_NAME", "op-123")])
        (reconcilerWith (podOf [{ Name := "manager", Image := "registry/x:tag" }])) {}
        { Name := "cluster-1" }).ds.Spec.Template.Spec.HostPID = true :=
  newVGManagerDaemonset_container operatorPackage (envOf [("POD_NAME", "op-123")])
    (reconcilerWith (podOf [{ Name := "manager", Image := "registry/x:tag" }])) {}
    { Name := "cluster-1" } (by decide)

end VGManager
